import Mathlib

/-!
# Verification of the ticketing-system concurrency-control core

Shallow embedding of the transactional concurrency-control engine of the
ticketing-system repository:

* `RollbackStrategyService` (rollback-strategy.service.ts): textual failure
  classification and the `isRetryable` predicate used by the generic
  transaction retry loop.
* `OptimisticConcurrencyService` (optimistic-concurrency.service.ts):
  `isOptimisticLockError` and the bounded retry loop `executeWithRetry`.
* `TransactionService` (transaction.service.ts): the `execute` retry loop,
  the inner `executeTransaction` resource lifecycle, and the
  isolation-level timeout table.
* `TicketsService` (tickets.service.ts): pessimistic and optimistic
  book/release units of work over the `Ticket` entity.

Machine integers of the source (quantities, versions, timeouts, retry
counters) are modelled as `Int`/`Nat`; JavaScript strings as `String`;
thrown exceptions as an explicit `DbError` sum returned through `Except`.
-/

namespace Ticketing

/-- `true` iff `needle` is a prefix of `hay` (character lists, decidable
by computation). Models JavaScript `String.prototype.startsWith` as used
implicitly by substring search. -/
def startsWithL : List Char → List Char → Bool
  | [], _ => true
  | _ :: _, [] => false
  | c :: cs, d :: ds => c == d && startsWithL cs ds

/-- `true` iff `needle` occurs contiguously inside `hay`. Models
JavaScript `String.prototype.includes`. -/
def containsSubL (needle : List Char) : List Char → Bool
  | [] => needle.isEmpty
  | c :: t => startsWithL needle (c :: t) || containsSubL needle t

/-- String-level wrapper for `containsSubL`: JavaScript
`hay.includes(needle)`. -/
def containsSub (needle hay : String) : Bool :=
  containsSubL needle.data hay.data

/-- JavaScript `String.prototype.toLowerCase`, restricted to the ASCII
range actually used by the error messages of the source. -/
def lowerStr (s : String) : String :=
  String.mk (s.data.map Char.toLower)

/-- The error surface the concurrency core distinguishes.
`queryFailed` stands for TypeORM's `QueryFailedError` (a database driver
error carrying the driver message), `conflictException` and
`notFoundException` for the NestJS HTTP exceptions thrown by the
services, and `otherError` for anything else. -/
inductive DbError where
  | queryFailed (msg : String)
  | conflictException (msg : String)
  | notFoundException (msg : String)
  | otherError (msg : String)
deriving DecidableEq, Repr

namespace DbError

/-- The `message` property of the underlying JavaScript error. -/
def message : DbError → String
  | queryFailed m => m
  | conflictException m => m
  | notFoundException m => m
  | otherError m => m

end DbError

instance {e a : Type} [DecidableEq e] [DecidableEq a] : DecidableEq (Except e a) := fun x y =>
  match x, y with
  | .ok u, .ok v => if h : u = v then isTrue (by rw [h]) else isFalse (by simp [h])
  | .error u, .error v => if h : u = v then isTrue (by rw [h]) else isFalse (by simp [h])
  | .ok _, .error _ => isFalse (by simp)
  | .error _, .ok _ => isFalse (by simp)

/-! ## Failure classifier (`RollbackStrategyService`) -/

/-- `RollbackStrategyService.isDeadlockError`: a `QueryFailedError` whose
lowercased message contains `"deadlock detected"`. -/
def isDeadlockError (e : DbError) : Bool :=
  match e with
  | .queryFailed msg => containsSub "deadlock detected" (lowerStr msg)
  | _ => false

/-- `RollbackStrategyService.isSerializationError`. -/
def isSerializationError (e : DbError) : Bool :=
  match e with
  | .queryFailed msg =>
      let m := lowerStr msg
      containsSub "could not serialize access" m ||
      containsSub "concurrent update" m ||
      containsSub "serialization failure" m
  | _ => false

/-- `RollbackStrategyService.isStatementTimeoutError`. -/
def isStatementTimeoutError (e : DbError) : Bool :=
  match e with
  | .queryFailed msg => containsSub "statement timeout" (lowerStr msg)
  | _ => false

/-- `RollbackStrategyService.isLockTimeoutError`. -/
def isLockTimeoutError (e : DbError) : Bool :=
  match e with
  | .queryFailed msg =>
      let m := lowerStr msg
      containsSub "lock timeout" m ||
      containsSub "could not obtain lock" m ||
      containsSub "lock not available" m
  | _ => false

/-- One entry of `RollbackStrategyService.strategies`: a matcher plus its
`retryable` flag (the `onRollback` logging callback has no effect on
control flow and is omitted). -/
structure RollbackStrategy where
  shouldRollback : DbError → Bool
  retryable : Bool

/-- The four strategies installed by
`RollbackStrategyService.registerDefaultStrategies`, in registration
order: deadlock (retryable), serialization failure (retryable), lock
timeout (not retryable), statement timeout (not retryable). -/
def defaultStrategies : List RollbackStrategy :=
  [ { shouldRollback := isDeadlockError, retryable := true },
    { shouldRollback := isSerializationError, retryable := true },
    { shouldRollback := isLockTimeoutError, retryable := false },
    { shouldRollback := isStatementTimeoutError, retryable := false } ]

/-- `RollbackStrategyService.isRetryable`: scans the strategy list and
returns `true` on the first strategy that both matches the error and is
marked `retryable`. -/
def isRetryable (strategies : List RollbackStrategy) (e : DbError) : Bool :=
  strategies.any (fun s => s.shouldRollback e && s.retryable)

/-! ## Optimistic retry driver (`OptimisticConcurrencyService`) -/

/-- `OptimisticConcurrencyService.isOptimisticLockError`: any
`ConflictException` counts, and a `QueryFailedError` counts when its
lowercased message contains one of four conflict markers. -/
def isOptimisticLockError (e : DbError) : Bool :=
  match e with
  | .conflictException _ => true
  | .queryFailed msg =>
      let m := lowerStr msg
      containsSub "could not serialize access due to concurrent update" m ||
      containsSub "version check failed" m ||
      containsSub "optimistic lock" m ||
      containsSub "row was updated or deleted by another transaction" m
  | _ => false

/-- The terminal error message built by `executeWithRetry` once the retry
budget is exhausted on an optimistic-lock error. -/
def terminalConflictMsg (context : String) (maxRetries : Nat) : String :=
  "Failed to complete " ++ context ++ " after " ++ toString maxRetries ++
    " retries due to concurrent modifications"

/-- Loop body of `OptimisticConcurrencyService.executeWithRetry`.
`op attempt` is the outcome of the `attempt`-th invocation of
`operation` (0-based), `budget = maxRetries - currentRetry` is the number
of retries still allowed. Returns the final outcome paired with the
total number of invocations of `operation`. The backoff sleep and the
jittered delay update change no control-flow and are not modelled. -/
def ewrGo {T : Type} (op : Nat → Except DbError T) (context : String)
    (maxRetries : Nat) : Nat → Nat → Except DbError T × Nat
  | attempt, 0 =>
    match op attempt with
    | .ok v => (.ok v, attempt + 1)
    | .error e =>
      if isOptimisticLockError e then
        (.error (.conflictException (terminalConflictMsg context maxRetries)), attempt + 1)
      else
        (.error e, attempt + 1)
  | attempt, b + 1 =>
    match op attempt with
    | .ok v => (.ok v, attempt + 1)
    | .error e =>
      if isOptimisticLockError e then
        ewrGo op context maxRetries (attempt + 1) b
      else
        (.error e, attempt + 1)

/-- `OptimisticConcurrencyService.executeWithRetry` with an explicit
`maxRetries` (the one option the call sites override); `currentRetry`
starts at 0, so the initial budget is `maxRetries`. -/
def executeWithRetry {T : Type} (op : Nat → Except DbError T)
    (maxRetries : Nat) (context : String) : Except DbError T × Nat :=
  ewrGo op context maxRetries 0 maxRetries

/-! ## Transaction executor (`TransactionService`) -/

def DEFAULT_TRANSACTION_TIMEOUT : Nat := 30000
def DEFAULT_STATEMENT_TIMEOUT : Nat := 5000
def DEFAULT_MAX_RETRIES : Nat := 3
def DEFAULT_RETRY_DELAY : Nat := 200

/-- `ISOLATION_LEVEL_TIMEOUTS`: the timeout table keyed by the
isolation-level string. In TypeScript the key type is the four-value
union `IsolationLevel`; at runtime the lookup on any other string yields
`undefined`, modelled here as `none`. -/
def ISOLATION_LEVEL_TIMEOUTS (level : String) : Option Nat :=
  if level = "READ UNCOMMITTED" then some 5000
  else if level = "READ COMMITTED" then some 10000
  else if level = "REPEATABLE READ" then some 15000
  else if level = "SERIALIZABLE" then some 20000
  else none

/-- JavaScript `a || b` on an optional number: `undefined` and `0` are
falsy and fall through to the default. -/
def jsOrNum (a : Option Nat) (dflt : Nat) : Nat :=
  match a with
  | some t => if t = 0 then dflt else t
  | none => dflt

/-- Resolution of the effective transaction timeout in
`TransactionService.executeTransaction`:
`timeout || ISOLATION_LEVEL_TIMEOUTS[isolationLevel] || DEFAULT_TRANSACTION_TIMEOUT`. -/
def resolveTxTimeout (timeout : Option Nat) (isolationLevel : String) : Nat :=
  jsOrNum timeout (jsOrNum (ISOLATION_LEVEL_TIMEOUTS isolationLevel) DEFAULT_TRANSACTION_TIMEOUT)

/-- Retry loop of `TransactionService.execute`. `op attempt` is the
outcome of the `attempt`-th call to `executeTransaction` (0-based) and
`budget = maxRetries - retries`. Returns the final outcome, the number
of invocations of the unit of work, and the list of backoff delays slept
between attempts (`retryDelay * retries` after the `retries` counter is
incremented, so the delays grow linearly). -/
def executeGo {T : Type} (op : Nat → Except DbError T) (strategies : List RollbackStrategy)
    (retryOnDeadlock : Bool) (maxRetries retryDelay : Nat) :
    Nat → Nat → Except DbError T × Nat × List Nat
  | attempt, 0 =>
    match op attempt with
    | .ok v => (.ok v, attempt + 1, [])
    | .error e => (.error e, attempt + 1, [])
  | attempt, b + 1 =>
    match op attempt with
    | .ok v => (.ok v, attempt + 1, [])
    | .error e =>
      if retryOnDeadlock && isRetryable strategies e then
        let r := executeGo op strategies retryOnDeadlock maxRetries retryDelay (attempt + 1) b
        (r.1, r.2.1, retryDelay * (maxRetries - b) :: r.2.2)
      else
        (.error e, attempt + 1, [])

/-- `TransactionService.execute` with the options that affect control
flow (`retryOnDeadlock`, `maxRetries`, `retryDelay`); `retries` starts
at 0 so the initial budget is `maxRetries`, and the strategy list is the
default one registered in the constructor. -/
def TransactionService.execute {T : Type} (op : Nat → Except DbError T)
    (retryOnDeadlock : Bool) (maxRetries retryDelay : Nat) :
    Except DbError T × Nat × List Nat :=
  executeGo op defaultStrategies retryOnDeadlock maxRetries retryDelay 0 maxRetries

/-! ## Connection lifecycle of `TransactionService.executeTransaction` -/

/-- The slice of TypeORM's `QueryRunner` state that the resource-safety
contract is about: how many times `release()` has run. The runner's
`isReleased` flag is true once it has been released at least once. -/
structure QueryRunner where
  releaseCount : Nat
deriving DecidableEq, Repr

/-- The `queryRunner.isReleased` flag. -/
def QueryRunner.isReleased (qr : QueryRunner) : Bool :=
  qr.releaseCount != 0

/-- `queryRunner.release()`. -/
def QueryRunner.release (qr : QueryRunner) : QueryRunner :=
  ⟨qr.releaseCount + 1⟩

/-- The guarded release `if (!queryRunner.isReleased) { ... release() }`
that appears both in the wall-clock timeout handler and in the `finally`
block of `executeTransaction`. -/
def releaseIfNotReleased (qr : QueryRunner) : QueryRunner :=
  if qr.isReleased then qr else qr.release

/-- How one call to `executeTransaction`'s unit of work can end: it
returns a value, it raises an error (business or classified
infrastructure), or the armed wall-clock timer fires first. -/
inductive UowOutcome (T : Type) where
  | ok (v : T)
  | raises (e : DbError)
  | timesOut
deriving DecidableEq, Repr

/-- The exit paths of `TransactionService.executeTransaction` as they
act on the query runner, starting from a freshly connected runner:

* `ok v` — the callback returns, `commitTransaction` runs, the value is
  returned, and the `finally` block performs the guarded release;
* `raises e` — the callback throws, `handleRollback` rolls back (its own
  failures are caught and logged), the original error is rethrown, and
  the `finally` block performs the guarded release;
* `timesOut` — the timer callback fires while the unit of work is
  suspended: it checks `isReleased`, rolls back and releases; the
  in-flight call then fails against the released runner, the `catch`
  rethrows that error, and the `finally` block runs its guarded release
  against the already-released runner.

The returned pair is the observed outcome and the final runner state. -/
def executeTransactionRunner {T : Type} (outcome : UowOutcome T) :
    Except DbError T × QueryRunner :=
  let qr0 : QueryRunner := ⟨0⟩
  match outcome with
  | .ok v => (.ok v, releaseIfNotReleased qr0)
  | .raises e => (.error e, releaseIfNotReleased qr0)
  | .timesOut =>
      let qr1 := releaseIfNotReleased qr0
      (.error (.queryFailed "Query runner already released. Cannot run queries anymore."),
       releaseIfNotReleased qr1)

/-! ## The `Ticket` entity and the units of work (`TicketsService`) -/

/-- The two columns of the `tickets` table that the concurrency core
reads and writes: the contended `quantity` counter (an SQL `integer`,
hence `Int`) and the `@VersionColumn` `version`. The descriptive
columns (`title`, `description`, `price`, `userId`, timestamps) play no
role in any claim and are omitted. -/
structure Ticket where
  quantity : Int
  version : Nat
deriving DecidableEq, Repr

/-- Message of the `NotFoundException` thrown by the booking paths. -/
def notFoundMsg (id : String) : String :=
  "Ticket with ID " ++ id ++ " not found"

/-- Message of the `ConflictException` thrown on insufficient quantity. -/
def insufficientMsg (requested available : Int) : String :=
  "Not enough tickets available. Requested: " ++ toString requested ++
    ", Available: " ++ toString available

/-- Message of the `ConflictException` raised when the conditional
update matches zero rows. -/
def versionConflictMsg : String :=
  "Version conflict detected. The ticket was modified by another transaction."

/-- Unit of work of `TicketsService.bookTicket` (pessimistic strategy),
acting on the single contended ticket row (`none` = row absent). On
success it returns the saved row and the new table state; `save()` on an
entity with a `@VersionColumn` bumps `version` by exactly 1 as part of
the same UPDATE. The row lock (`pessimistic_write`, `nowait`) makes the
read-modify-write atomic, which is what lets the unit of work act on a
single state. Raising leaves the table to be rolled back by the
executor. -/
def bookTicketUow (id : String) (db : Option Ticket) (qty : Int) :
    Except DbError (Ticket × Option Ticket) :=
  match db with
  | none => .error (.notFoundException (notFoundMsg id))
  | some t =>
      if t.quantity < qty then
        .error (.conflictException (insufficientMsg qty t.quantity))
      else
        let t2 : Ticket := ⟨t.quantity - qty, t.version + 1⟩
        .ok (t2, some t2)

/-- Unit of work of `TicketsService.releaseTicket`: same locking
discipline, increments `quantity`, no sufficiency guard. -/
def releaseTicketUow (id : String) (db : Option Ticket) (qty : Int) :
    Except DbError (Ticket × Option Ticket) :=
  match db with
  | none => .error (.notFoundException (notFoundMsg id))
  | some t =>
      let t2 : Ticket := ⟨t.quantity + qty, t.version + 1⟩
      .ok (t2, some t2)

/-- Unit of work of `TicketsService.bookTicketOptimistic`, run at
READ COMMITTED: read the ticket with no lock (`dbRead`), check existence
and sufficiency, capture `initialVersion`, compute the new quantity in
memory, then issue the single conditional
`UPDATE tickets SET quantity = :new WHERE id = :id AND version = :initialVersion`
against the table state at update time (`dbNow`). Per the store
contract (TypeORM adds `version = version + 1` for the `@VersionColumn`
to that same UPDATE statement), a matching update bumps `version` by
exactly 1 atomically with the quantity change; zero affected rows raise
the version-conflict `ConflictException`. On success the code re-reads
and returns the updated row. -/
def bookTicketOptimisticUow (id : String) (dbRead dbNow : Option Ticket) (qty : Int) :
    Except DbError (Ticket × Option Ticket) :=
  match dbRead with
  | none => .error (.notFoundException (notFoundMsg id))
  | some t =>
      if t.quantity < qty then
        .error (.conflictException (insufficientMsg qty t.quantity))
      else
        let initialVersion := t.version
        let newQuantity := t.quantity - qty
        match dbNow with
        | some cur =>
            if cur.version = initialVersion then
              let t2 : Ticket := ⟨newQuantity, cur.version + 1⟩
              .ok (t2, some t2)
            else
              .error (.conflictException versionConflictMsg)
        | none => .error (.conflictException versionConflictMsg)

/-- Unit of work of `TicketsService.releaseTicketOptimistic`: as the
optimistic booking unit of work but incrementing and with no
sufficiency guard. -/
def releaseTicketOptimisticUow (id : String) (dbRead dbNow : Option Ticket) (qty : Int) :
    Except DbError (Ticket × Option Ticket) :=
  match dbRead with
  | none => .error (.notFoundException (notFoundMsg id))
  | some t =>
      let initialVersion := t.version
      let newQuantity := t.quantity + qty
      match dbNow with
      | some cur =>
          if cur.version = initialVersion then
            let t2 : Ticket := ⟨newQuantity, cur.version + 1⟩
            .ok (t2, some t2)
          else
            .error (.conflictException versionConflictMsg)
      | none => .error (.conflictException versionConflictMsg)

/-- `TransactionService.execute` threading the committed table state: a
successful unit of work commits its new state; a failing one is rolled
back, so every retry re-runs the unit of work against the unchanged
committed state. Same loop as `executeGo`, with the invocation count in
the last component. -/
def executeDbGo (uow : Option Ticket → Except DbError (Ticket × Option Ticket))
    (retryOnDeadlock : Bool) (db : Option Ticket) :
    Nat → Nat → Except DbError Ticket × Option Ticket × Nat
  | attempt, 0 =>
    match uow db with
    | .ok (t, db2) => (.ok t, db2, attempt + 1)
    | .error e => (.error e, db, attempt + 1)
  | attempt, b + 1 =>
    match uow db with
    | .ok (t, db2) => (.ok t, db2, attempt + 1)
    | .error e =>
      if retryOnDeadlock && isRetryable defaultStrategies e then
        executeDbGo uow retryOnDeadlock db (attempt + 1) b
      else
        (.error e, db, attempt + 1)

/-- `TicketsService.bookTicket`: the pessimistic unit of work run
through `TransactionService.execute` at SERIALIZABLE with default
options (`retryOnDeadlock = true`, `maxRetries = DEFAULT_MAX_RETRIES`). -/
def bookTicket (id : String) (db : Option Ticket) (qty : Int) :
    Except DbError Ticket × Option Ticket × Nat :=
  executeDbGo (fun d => bookTicketUow id d qty) true db 0 DEFAULT_MAX_RETRIES

/-- `TicketsService.releaseTicket` through the same executor. -/
def releaseTicket (id : String) (db : Option Ticket) (qty : Int) :
    Except DbError Ticket × Option Ticket × Nat :=
  executeDbGo (fun d => releaseTicketUow id d qty) true db 0 DEFAULT_MAX_RETRIES

/-- `TicketsService.bookTicketOptimistic`: the optimistic unit of work
run through `TransactionService.execute` at READ COMMITTED, the whole
transaction wrapped in
`optimisticConcurrencyService.executeWithRetry(op, { maxRetries: 5 }, 'booking ticket ' + id)`.
In the committed-state semantics each retry reads the same committed
state (the failed attempt was rolled back), so the per-attempt outcome
is the deterministic `step`; the new state is committed only when the
retry loop returns success. Result: ((outcome, operation invocation
count), final committed state). -/
def bookTicketOptimistic (id : String) (db : Option Ticket) (qty : Int) :
    (Except DbError Ticket × Nat) × Option Ticket :=
  let step := executeDbGo (fun d => bookTicketOptimisticUow id d d qty) true db 0 DEFAULT_MAX_RETRIES
  let r := executeWithRetry (fun _ => step.1) 5 ("booking ticket " ++ id)
  (r, match r.1 with
      | .ok _ => step.2.1
      | .error _ => db)

/-- `TicketsService.releaseTicketOptimistic`, context
`'releasing ticket ' + id`. -/
def releaseTicketOptimistic (id : String) (db : Option Ticket) (qty : Int) :
    (Except DbError Ticket × Nat) × Option Ticket :=
  let step := executeDbGo (fun d => releaseTicketOptimisticUow id d d qty) true db 0 DEFAULT_MAX_RETRIES
  let r := executeWithRetry (fun _ => step.1) 5 ("releasing ticket " ++ id)
  (r, match r.1 with
      | .ok _ => step.2.1
      | .error _ => db)

/-! ## Committed-state traces of book/release calls -/

/-- Which operation a caller invokes. -/
inductive CallKind where
  | book
  | release
deriving DecidableEq, Repr

/-- One book or release call against the single contended ticket: the
operation, which strategy serves it, and the requested amount (request
quantities are validated positive integers at the HTTP boundary, hence
`Nat`). -/
structure BookingCall where
  kind : CallKind
  optimistic : Bool
  qty : Nat
deriving DecidableEq, Repr

/-- The committed effect of one call on the committed table state. Both
strategies make the read-modify-write atomic against the committed
state (row lock for the pessimistic path, the conditional-update CAS
for the optimistic path), so a sequence of committed operations is a
sequence of these steps. -/
def applyCall (db : Option Ticket) (c : BookingCall) : Except DbError Ticket × Option Ticket :=
  match c.kind, c.optimistic with
  | .book, false => let r := bookTicket "t" db (c.qty : Int); (r.1, r.2.1)
  | .book, true => let r := bookTicketOptimistic "t" db (c.qty : Int); (r.1.1, r.2)
  | .release, false => let r := releaseTicket "t" db (c.qty : Int); (r.1, r.2.1)
  | .release, true => let r := releaseTicketOptimistic "t" db (c.qty : Int); (r.1.1, r.2)

/-- Run a sequence of calls; returns the final committed state together
with the sum of the amounts of the bookings the system reported as
succeeded and the sum for the succeeded releases. -/
def runTrace (db : Option Ticket) : List BookingCall → Option Ticket × Int × Int
  | [] => (db, 0, 0)
  | c :: rest =>
    let s := applyCall db c
    let r := runTrace s.2 rest
    match s.1, c.kind with
    | .ok _, .book => (r.1, r.2.1 + (c.qty : Int), r.2.2)
    | .ok _, .release => (r.1, r.2.1, r.2.2 + (c.qty : Int))
    | .error _, _ => r

/-- Every committed state the trace passes through, the initial state
included. -/
def traceStates (db : Option Ticket) : List BookingCall → List (Option Ticket)
  | [] => [db]
  | c :: rest => db :: traceStates (applyCall db c).2 rest

/-! ## Helper lemmas -/

theorem isRetryable_eq (e : DbError) :
    isRetryable defaultStrategies e = (isDeadlockError e || isSerializationError e) := by
  simp [isRetryable, defaultStrategies, List.any]

theorem isRetryable_conflictException (m : String) :
    isRetryable defaultStrategies (.conflictException m) = false := rfl

theorem isRetryable_notFoundException (m : String) :
    isRetryable defaultStrategies (.notFoundException m) = false := rfl

theorem isOptimisticLockError_notFoundException (m : String) :
    isOptimisticLockError (.notFoundException m) = false := rfl

theorem startsWithL_append (xs ys : List Char) : startsWithL xs (xs ++ ys) = true := by
  induction xs with
  | nil => rfl
  | cons c cs ih => simp [startsWithL, ih]

theorem containsSubL_nil (hay : List Char) : containsSubL [] hay = true := by
  cases hay with
  | nil => rfl
  | cons c t => simp [containsSubL, startsWithL]

theorem containsSubL_middle (needle post : List Char) :
    ∀ pre, containsSubL needle (pre ++ (needle ++ post)) = true := by
  intro pre
  induction pre with
  | nil =>
      cases needle with
      | nil => simpa using containsSubL_nil post
      | cons n ns =>
          have h := startsWithL_append (n :: ns) post
          simp only [List.nil_append, List.cons_append] at h ⊢
          simp [containsSubL, h]
  | cons p pre ih =>
      simp [containsSubL, ih]

theorem containsSub_terminalConflictMsg (context : String) (maxRetries : Nat) :
    containsSub context (terminalConflictMsg context maxRetries) = true := by
  have hdata : (terminalConflictMsg context maxRetries).data =
      "Failed to complete ".data ++ (context.data ++
        (" after " ++ toString maxRetries ++ " retries due to concurrent modifications").data) := by
    simp [terminalConflictMsg, String.data_append, List.append_assoc]
  simp only [containsSub, hdata]
  exact containsSubL_middle context.data _ _

theorem ewrGo_eq {T : Type} (op : Nat → Except DbError T) (context : String)
    (maxRetries attempt budget : Nat) :
    ewrGo op context maxRetries attempt budget =
      match op attempt with
      | .ok v => (.ok v, attempt + 1)
      | .error e =>
        if isOptimisticLockError e then
          match budget with
          | 0 => (.error (.conflictException (terminalConflictMsg context maxRetries)),
                  attempt + 1)
          | b + 1 => ewrGo op context maxRetries (attempt + 1) b
        else
          (.error e, attempt + 1) := by
  cases budget <;> rfl

theorem ewrGo_count_le {T : Type} (op : Nat → Except DbError T) (context : String)
    (maxRetries : Nat) :
    ∀ budget attempt, (ewrGo op context maxRetries attempt budget).2 ≤ attempt + budget + 1 := by
  intro budget
  induction budget with
  | zero =>
      intro attempt
      rw [ewrGo_eq]
      cases h : op attempt with
      | ok v => simp
      | error e => by_cases he : isOptimisticLockError e <;> simp [he]
  | succ b ih =>
      intro attempt
      rw [ewrGo_eq]
      cases h : op attempt with
      | ok v => simp
      | error e =>
          by_cases he : isOptimisticLockError e
          · simpa [he] using le_trans (ih (attempt + 1)) (by omega)
          · simp [he]

theorem ewrGo_alwaysErr {T : Type} (op : Nat → Except DbError T) (context : String)
    (maxRetries : Nat) (e : DbError) (hop : ∀ n, op n = .error e)
    (he : isOptimisticLockError e = true) :
    ∀ budget attempt, ewrGo op context maxRetries attempt budget =
      (.error (.conflictException (terminalConflictMsg context maxRetries)), attempt + budget + 1) := by
  intro budget
  induction budget with
  | zero => intro attempt; rw [ewrGo_eq]; simp [hop attempt, he]
  | succ b ih =>
      intro attempt
      rw [ewrGo_eq]
      simp only [hop attempt, he, if_true, ih (attempt + 1), Prod.mk.injEq, true_and]
      omega

theorem executeWithRetry_ok {T : Type} (op : Nat → Except DbError T) (maxRetries : Nat)
    (context : String) (v : T) (h : op 0 = .ok v) :
    executeWithRetry op maxRetries context = (.ok v, 1) := by
  unfold executeWithRetry
  rw [ewrGo_eq]
  simp [h]

theorem executeWithRetry_nonretryable {T : Type} (op : Nat → Except DbError T)
    (maxRetries : Nat) (context : String) (e : DbError) (h : op 0 = .error e)
    (he : isOptimisticLockError e = false) :
    executeWithRetry op maxRetries context = (.error e, 1) := by
  unfold executeWithRetry
  rw [ewrGo_eq]
  simp [h, he]

theorem executeWithRetry_alwaysErr {T : Type} (op : Nat → Except DbError T)
    (maxRetries : Nat) (context : String) (e : DbError) (hop : ∀ n, op n = .error e)
    (he : isOptimisticLockError e = true) :
    executeWithRetry op maxRetries context =
      (.error (.conflictException (terminalConflictMsg context maxRetries)), maxRetries + 1) := by
  unfold executeWithRetry
  have h := ewrGo_alwaysErr op context maxRetries e hop he maxRetries 0
  simpa using h

theorem executeGo_eq {T : Type} (op : Nat → Except DbError T)
    (strategies : List RollbackStrategy) (retryOnDeadlock : Bool)
    (maxRetries retryDelay attempt budget : Nat) :
    executeGo op strategies retryOnDeadlock maxRetries retryDelay attempt budget =
      match op attempt with
      | .ok v => (.ok v, attempt + 1, [])
      | .error e =>
        match budget with
        | 0 => (.error e, attempt + 1, [])
        | b + 1 =>
          if retryOnDeadlock && isRetryable strategies e then
            let r := executeGo op strategies retryOnDeadlock maxRetries retryDelay (attempt + 1) b
            (r.1, r.2.1, retryDelay * (maxRetries - b) :: r.2.2)
          else
            (.error e, attempt + 1, []) := by
  cases budget <;> rfl

theorem executeGo_count_le {T : Type} (op : Nat → Except DbError T)
    (strategies : List RollbackStrategy) (retryOnDeadlock : Bool) (maxRetries retryDelay : Nat) :
    ∀ budget attempt,
      (executeGo op strategies retryOnDeadlock maxRetries retryDelay attempt budget).2.1 ≤
        attempt + budget + 1 := by
  intro budget
  induction budget with
  | zero =>
      intro attempt
      rw [executeGo_eq]
      cases h : op attempt with
      | ok v => simp
      | error e => simp
  | succ b ih =>
      intro attempt
      rw [executeGo_eq]
      cases h : op attempt with
      | ok v => simp
      | error e =>
          by_cases hr : retryOnDeadlock && isRetryable strategies e
          · simpa [hr] using le_trans (ih (attempt + 1)) (by omega)
          · simp [hr]

theorem executeGo_alwaysErr_result {T : Type} (op : Nat → Except DbError T)
    (strategies : List RollbackStrategy) (retryOnDeadlock : Bool) (maxRetries retryDelay : Nat)
    (e : DbError) (hop : ∀ n, op n = .error e) :
    ∀ budget attempt,
      (executeGo op strategies retryOnDeadlock maxRetries retryDelay attempt budget).1 =
        .error e := by
  intro budget
  induction budget with
  | zero => intro attempt; rw [executeGo_eq]; simp [hop attempt]
  | succ b ih =>
      intro attempt
      rw [executeGo_eq]
      by_cases hr : retryOnDeadlock && isRetryable strategies e
      · simp [hop attempt, hr, ih (attempt + 1)]
      · simp [hop attempt, hr]

theorem executeGo_nonretryable {T : Type} (op : Nat → Except DbError T)
    (strategies : List RollbackStrategy) (retryOnDeadlock : Bool) (maxRetries retryDelay : Nat)
    (e : DbError) (attempt budget : Nat) (h : op attempt = .error e)
    (hr : (retryOnDeadlock && isRetryable strategies e) = false) :
    executeGo op strategies retryOnDeadlock maxRetries retryDelay attempt budget =
      (.error e, attempt + 1, []) := by
  rw [executeGo_eq]
  cases budget <;> simp [h, hr]

theorem executeDbGo_eq (uow : Option Ticket → Except DbError (Ticket × Option Ticket))
    (retryOnDeadlock : Bool) (db : Option Ticket) (attempt budget : Nat) :
    executeDbGo uow retryOnDeadlock db attempt budget =
      match uow db with
      | .ok (t, db2) => (.ok t, db2, attempt + 1)
      | .error e =>
        match budget with
        | 0 => (.error e, db, attempt + 1)
        | b + 1 =>
          if retryOnDeadlock && isRetryable defaultStrategies e then
            executeDbGo uow retryOnDeadlock db (attempt + 1) b
          else
            (.error e, db, attempt + 1) := by
  cases budget <;> rfl

theorem executeDbGo_ok (uow : Option Ticket → Except DbError (Ticket × Option Ticket))
    (retryOnDeadlock : Bool) (db : Option Ticket) (t : Ticket) (db2 : Option Ticket)
    (attempt budget : Nat) (h : uow db = .ok (t, db2)) :
    executeDbGo uow retryOnDeadlock db attempt budget = (.ok t, db2, attempt + 1) := by
  rw [executeDbGo_eq]
  simp [h]

theorem executeDbGo_nonretryable (uow : Option Ticket → Except DbError (Ticket × Option Ticket))
    (retryOnDeadlock : Bool) (db : Option Ticket) (e : DbError) (attempt budget : Nat)
    (h : uow db = .error e) (hr : (retryOnDeadlock && isRetryable defaultStrategies e) = false) :
    executeDbGo uow retryOnDeadlock db attempt budget = (.error e, db, attempt + 1) := by
  rw [executeDbGo_eq]
  cases budget <;> simp [h, hr]

theorem bookTicketUow_insufficient (id : String) (t : Ticket) (qty : Int)
    (h : t.quantity < qty) :
    bookTicketUow id (some t) qty = .error (.conflictException (insufficientMsg qty t.quantity)) := by
  simp [bookTicketUow, h]

theorem bookTicketUow_ok (id : String) (t : Ticket) (qty : Int) (h : ¬t.quantity < qty) :
    bookTicketUow id (some t) qty =
      .ok (⟨t.quantity - qty, t.version + 1⟩, some ⟨t.quantity - qty, t.version + 1⟩) := by
  simp [bookTicketUow, h]

theorem bookTicket_none (id : String) (qty : Int) :
    bookTicket id none qty = (.error (.notFoundException (notFoundMsg id)), none, 1) := by
  unfold bookTicket
  exact executeDbGo_nonretryable _ _ _ _ _ _ rfl (by simp [isRetryable_notFoundException])

theorem bookTicket_insufficient (id : String) (t : Ticket) (qty : Int)
    (h : t.quantity < qty) :
    bookTicket id (some t) qty =
      (.error (.conflictException (insufficientMsg qty t.quantity)), some t, 1) := by
  unfold bookTicket
  exact executeDbGo_nonretryable _ _ _ _ _ _ (bookTicketUow_insufficient id t qty h)
    (by simp [isRetryable_conflictException])

theorem bookTicket_ok (id : String) (t : Ticket) (qty : Int) (h : ¬t.quantity < qty) :
    bookTicket id (some t) qty =
      (.ok ⟨t.quantity - qty, t.version + 1⟩, some ⟨t.quantity - qty, t.version + 1⟩, 1) := by
  unfold bookTicket
  exact executeDbGo_ok _ _ _ _ _ _ _ (bookTicketUow_ok id t qty h)

theorem releaseTicket_none (id : String) (qty : Int) :
    releaseTicket id none qty = (.error (.notFoundException (notFoundMsg id)), none, 1) := by
  unfold releaseTicket
  exact executeDbGo_nonretryable _ _ _ _ _ _ rfl (by simp [isRetryable_notFoundException])

theorem releaseTicket_some (id : String) (t : Ticket) (qty : Int) :
    releaseTicket id (some t) qty =
      (.ok ⟨t.quantity + qty, t.version + 1⟩, some ⟨t.quantity + qty, t.version + 1⟩, 1) := by
  unfold releaseTicket
  exact executeDbGo_ok _ _ _ _ _ _ _ rfl

theorem bookTicketOptimisticUow_self_ok (id : String) (t : Ticket) (qty : Int)
    (h : ¬t.quantity < qty) :
    bookTicketOptimisticUow id (some t) (some t) qty =
      .ok (⟨t.quantity - qty, t.version + 1⟩, some ⟨t.quantity - qty, t.version + 1⟩) := by
  simp [bookTicketOptimisticUow, h]

theorem bookTicketOptimistic_ok (id : String) (t : Ticket) (qty : Int)
    (h : ¬t.quantity < qty) :
    bookTicketOptimistic id (some t) qty =
      ((.ok ⟨t.quantity - qty, t.version + 1⟩, 1), some ⟨t.quantity - qty, t.version + 1⟩) := by
  have hstep : executeDbGo (fun d => bookTicketOptimisticUow id d d qty) true (some t) 0
      DEFAULT_MAX_RETRIES =
      (.ok ⟨t.quantity - qty, t.version + 1⟩, some ⟨t.quantity - qty, t.version + 1⟩, 1) :=
    executeDbGo_ok _ _ _ _ _ _ _ (bookTicketOptimisticUow_self_ok id t qty h)
  have hr : executeWithRetry
      (fun _ => (executeDbGo (fun d => bookTicketOptimisticUow id d d qty) true (some t) 0
        DEFAULT_MAX_RETRIES).1) 5 ("booking ticket " ++ id) =
      (.ok ⟨t.quantity - qty, t.version + 1⟩, 1) :=
    executeWithRetry_ok _ _ _ _ (by rw [hstep])
  simp only [bookTicketOptimistic]
  rw [hr]
  simp [hstep]

theorem bookTicketOptimistic_insufficient (id : String) (t : Ticket) (qty : Int)
    (h : t.quantity < qty) :
    bookTicketOptimistic id (some t) qty =
      ((.error (.conflictException (terminalConflictMsg ("booking ticket " ++ id) 5)), 6),
       some t) := by
  have hstep : executeDbGo (fun d => bookTicketOptimisticUow id d d qty) true (some t) 0
      DEFAULT_MAX_RETRIES =
      (.error (.conflictException (insufficientMsg qty t.quantity)), some t, 1) :=
    executeDbGo_nonretryable _ _ _ _ _ _
      (by simp [bookTicketOptimisticUow, h]) (by simp [isRetryable_conflictException])
  have hr : executeWithRetry
      (fun _ => (executeDbGo (fun d => bookTicketOptimisticUow id d d qty) true (some t) 0
        DEFAULT_MAX_RETRIES).1) 5 ("booking ticket " ++ id) =
      (.error (.conflictException (terminalConflictMsg ("booking ticket " ++ id) 5)), 6) :=
    executeWithRetry_alwaysErr _ _ _ (.conflictException (insufficientMsg qty t.quantity))
      (fun _ => by rw [hstep]) rfl
  simp only [bookTicketOptimistic]
  rw [hr]

theorem bookTicketOptimistic_none (id : String) (qty : Int) :
    bookTicketOptimistic id none qty =
      ((.error (.notFoundException (notFoundMsg id)), 1), none) := by
  have hstep : executeDbGo (fun d => bookTicketOptimisticUow id d d qty) true none 0
      DEFAULT_MAX_RETRIES =
      (.error (.notFoundException (notFoundMsg id)), none, 1) :=
    executeDbGo_nonretryable _ _ _ _ _ _ rfl (by simp [isRetryable_notFoundException])
  have hr : executeWithRetry
      (fun _ => (executeDbGo (fun d => bookTicketOptimisticUow id d d qty) true none 0
        DEFAULT_MAX_RETRIES).1) 5 ("booking ticket " ++ id) =
      (.error (.notFoundException (notFoundMsg id)), 1) :=
    executeWithRetry_nonretryable _ _ _ (.notFoundException (notFoundMsg id))
      (by rw [hstep]) rfl
  simp only [bookTicketOptimistic]
  rw [hr]

theorem releaseTicketOptimistic_some (id : String) (t : Ticket) (qty : Int) :
    releaseTicketOptimistic id (some t) qty =
      ((.ok ⟨t.quantity + qty, t.version + 1⟩, 1), some ⟨t.quantity + qty, t.version + 1⟩) := by
  have hstep : executeDbGo (fun d => releaseTicketOptimisticUow id d d qty) true (some t) 0
      DEFAULT_MAX_RETRIES =
      (.ok ⟨t.quantity + qty, t.version + 1⟩, some ⟨t.quantity + qty, t.version + 1⟩, 1) :=
    executeDbGo_ok _ _ _ _ _ _ _ (by simp [releaseTicketOptimisticUow])
  have hr : executeWithRetry
      (fun _ => (executeDbGo (fun d => releaseTicketOptimisticUow id d d qty) true (some t) 0
        DEFAULT_MAX_RETRIES).1) 5 ("releasing ticket " ++ id) =
      (.ok ⟨t.quantity + qty, t.version + 1⟩, 1) :=
    executeWithRetry_ok _ _ _ _ (by rw [hstep])
  simp only [releaseTicketOptimistic]
  rw [hr]
  simp [hstep]

theorem releaseTicketOptimistic_none (id : String) (qty : Int) :
    releaseTicketOptimistic id none qty =
      ((.error (.notFoundException (notFoundMsg id)), 1), none) := by
  have hstep : executeDbGo (fun d => releaseTicketOptimisticUow id d d qty) true none 0
      DEFAULT_MAX_RETRIES =
      (.error (.notFoundException (notFoundMsg id)), none, 1) :=
    executeDbGo_nonretryable _ _ _ _ _ _ rfl (by simp [isRetryable_notFoundException])
  have hr : executeWithRetry
      (fun _ => (executeDbGo (fun d => releaseTicketOptimisticUow id d d qty) true none 0
        DEFAULT_MAX_RETRIES).1) 5 ("releasing ticket " ++ id) =
      (.error (.notFoundException (notFoundMsg id)), 1) :=
    executeWithRetry_nonretryable _ _ _ (.notFoundException (notFoundMsg id))
      (by rw [hstep]) rfl
  simp only [releaseTicketOptimistic]
  rw [hr]

/-! ## Claim theorems -/

/-- C2: every successful optimistic conditional update (the single
UPDATE guarded by `WHERE id = :id AND version = :initialVersion` that
affects one row) increments the ticket's version by exactly 1 together
with the quantity change; concretely, for a ticket with `quantity = 10`
and `version = 1`, booking 2 optimistically returns a ticket with
`quantity = 8` and `version = 2`. -/
theorem optimistic_update_version_bump :
    (∀ (id : String) (dbRead : Option Ticket) (cur : Ticket) (qty : Int)
       (t2 : Ticket) (db2 : Option Ticket),
      bookTicketOptimisticUow id dbRead (some cur) qty = .ok (t2, db2) →
      t2.version = cur.version + 1 ∧ db2 = some t2 ∧
      ∃ t, dbRead = some t ∧ t2.quantity = t.quantity - qty ∧ t.version = cur.version) ∧
    bookTicketOptimistic "t1" (some ⟨10, 1⟩) 2 = ((.ok ⟨8, 2⟩, 1), some ⟨8, 2⟩) := by
  constructor
  · intro id dbRead cur qty t2 db2 h
    cases dbRead with
    | none => simp [bookTicketOptimisticUow] at h
    | some t =>
        by_cases hq : t.quantity < qty
        · simp [bookTicketOptimisticUow, hq] at h
        · by_cases hv : cur.version = t.version
          · simp [bookTicketOptimisticUow, hq, hv] at h
            obtain ⟨h2, hdb⟩ := h
            subst h2
            subst hdb
            exact ⟨by simp [hv], rfl, t, rfl, rfl, hv.symm⟩
          · simp [bookTicketOptimisticUow, hq, hv] at h
  · decide

/-- C2 witness: the general version-bump statement applied at the
concrete scenario `quantity = 10, version = 1`, booking 2. -/
theorem optimistic_update_version_bump_witness :
    (Ticket.mk 8 2).version = (Ticket.mk 10 1).version + 1 ∧
    (some (Ticket.mk 8 2) : Option Ticket) = some (Ticket.mk 8 2) ∧
    ∃ t, (some (Ticket.mk 10 1) : Option Ticket) = some t ∧
      (Ticket.mk 8 2).quantity = t.quantity - 2 ∧ t.version = (Ticket.mk 10 1).version :=
  optimistic_update_version_bump.1 "t1" (some ⟨10, 1⟩) ⟨10, 1⟩ 2 ⟨8, 2⟩ (some ⟨8, 2⟩) (by decide)

/-- C3: the code classifies the insufficient-quantity rejection (a
`ConflictException`) as an optimistic-lock error, so `executeWithRetry`
re-invokes the operation for it; with `maxRetries = 5` the operation
runs 6 times and the caller receives the terminal retry-exhausted
conflict message instead of the original business rejection. This
evaluates the booking path at the failing input
`quantity = 1, version = 1`, requested `2`. -/
theorem insufficient_quantity_is_retried :
    isOptimisticLockError (.conflictException (insufficientMsg 2 1)) = true ∧
    bookTicketOptimistic "t1" (some ⟨1, 1⟩) 2 =
      ((.error (.conflictException (terminalConflictMsg "booking ticket t1" 5)), 6),
       some ⟨1, 1⟩) := by
  constructor
  · rfl
  · have h := bookTicketOptimistic_insufficient "t1" ⟨1, 1⟩ 2 (by decide)
    simpa using h

/-- C4: `executeWithRetry` with `maxRetries = N` invokes the operation
at most `N + 1` times; on an always-failing retryable operation it
raises the terminal conflict error whose message names the given
context after exactly `N + 1` invocations; on a non-retryable error the
operation is invoked exactly once and the original error is propagated
unchanged. -/
theorem executeWithRetry_bounds :
    (∀ (T : Type) (op : Nat → Except DbError T) (maxRetries : Nat) (context : String),
      (executeWithRetry op maxRetries context).2 ≤ maxRetries + 1) ∧
    (∀ (T : Type) (op : Nat → Except DbError T) (maxRetries : Nat) (context : String)
       (e : DbError), (∀ n, op n = .error e) → isOptimisticLockError e = true →
      executeWithRetry op maxRetries context =
        (.error (.conflictException (terminalConflictMsg context maxRetries)), maxRetries + 1) ∧
      containsSub context (terminalConflictMsg context maxRetries) = true) ∧
    (∀ (T : Type) (op : Nat → Except DbError T) (maxRetries : Nat) (context : String)
       (e : DbError), op 0 = .error e → isOptimisticLockError e = false →
      executeWithRetry op maxRetries context = (.error e, 1)) := by
  refine ⟨?_, ?_, ?_⟩
  · intro T op maxRetries context
    have h := ewrGo_count_le op context maxRetries maxRetries 0
    simpa [executeWithRetry] using h
  · intro T op maxRetries context e hop he
    exact ⟨executeWithRetry_alwaysErr op maxRetries context e hop he,
      containsSub_terminalConflictMsg context maxRetries⟩
  · intro T op maxRetries context e h he
    exact executeWithRetry_nonretryable op maxRetries context e h he

/-- C4 witness: the retry bounds applied to a concrete always-failing
retryable operation (`maxRetries = 2`, so 3 invocations and the
terminal error) and to a concrete non-retryable failure (1 invocation,
original error). -/
theorem executeWithRetry_bounds_witness :
    (executeWithRetry (fun _ => .error (.conflictException "boom") : Nat → Except DbError Nat)
        2 "test operation" =
      (.error (.conflictException (terminalConflictMsg "test operation" 2)), 3) ∧
     containsSub "test operation" (terminalConflictMsg "test operation" 2) = true) ∧
    executeWithRetry (fun _ => .error (.otherError "boom") : Nat → Except DbError Nat)
        2 "test operation" = (.error (.otherError "boom"), 1) :=
  ⟨executeWithRetry_bounds.2.1 Nat _ 2 "test operation" (.conflictException "boom")
      (fun _ => rfl) rfl,
   executeWithRetry_bounds.2.2 Nat _ 2 "test operation" (.otherError "boom") rfl rfl⟩

/-- C5: the generic retry path retries exactly the errors matched as
deadlock or serialization failure; canonical lock-timeout and
statement-timeout errors are matched by their strategies yet not
retryable; the optimistic version-conflict `ConflictException` is not
retryable for the generic path but is retried by the optimistic
strategy's own loop. -/
theorem classifier_retryability :
    (∀ e, isRetryable defaultStrategies e = (isDeadlockError e || isSerializationError e)) ∧
    (isRetryable defaultStrategies (.queryFailed "deadlock detected") = true ∧
     isRetryable defaultStrategies (.queryFailed "could not serialize access") = true) ∧
    (isRetryable defaultStrategies (.queryFailed "lock not available") = false ∧
     isLockTimeoutError (.queryFailed "lock not available") = true) ∧
    (isRetryable defaultStrategies
        (.queryFailed "canceling statement due to statement timeout") = false ∧
     isStatementTimeoutError
        (.queryFailed "canceling statement due to statement timeout") = true) ∧
    (isRetryable defaultStrategies (.conflictException versionConflictMsg) = false ∧
     isOptimisticLockError (.conflictException versionConflictMsg) = true ∧
     executeWithRetry
        (fun n => if n = 0 then .error (.conflictException versionConflictMsg) else .ok 42)
        5 "operation" = (.ok (42 : Nat), 2)) := by
  refine ⟨isRetryable_eq, by decide, by decide, by decide, by decide⟩

/-- C6 counterexample: the Transaction Executor itself re-invokes the
unit of work. A unit of work that always raises a deadlock error is
invoked 4 times by `TransactionService.execute` under the default
options, not once. -/
theorem executor_reinvokes_deadlocked_uow :
    (TransactionService.execute
        (fun _ => .error (.queryFailed "deadlock detected") : Nat → Except DbError Nat)
        true DEFAULT_MAX_RETRIES DEFAULT_RETRY_DELAY).2.1 = 4 ∧
    ¬ (TransactionService.execute
        (fun _ => .error (.queryFailed "deadlock detected") : Nat → Except DbError Nat)
        true DEFAULT_MAX_RETRIES DEFAULT_RETRY_DELAY).2.1 = 1 := by
  decide

/-- C6 amended: the executor never swallows an error — an always-failing
unit of work yields the original error, re-raised to the caller — and it
re-invokes the unit of work only through its own bounded deadlock-retry
loop: with retry disabled or a non-retryable error the unit of work runs
exactly once, and in all cases at most `maxRetries + 1` times. -/
theorem executor_reraises_original_error :
    ∀ (T : Type) (op : Nat → Except DbError T) (retryOnDeadlock : Bool)
      (maxRetries retryDelay : Nat) (e : DbError),
      (∀ n, op n = .error e) →
      (TransactionService.execute op retryOnDeadlock maxRetries retryDelay).1 = .error e ∧
      ((retryOnDeadlock && isRetryable defaultStrategies e) = false →
        TransactionService.execute op retryOnDeadlock maxRetries retryDelay =
          (.error e, 1, [])) ∧
      (TransactionService.execute op retryOnDeadlock maxRetries retryDelay).2.1 ≤
        maxRetries + 1 := by
  intro T op retryOnDeadlock maxRetries retryDelay e hop
  refine ⟨?_, ?_, ?_⟩
  · exact executeGo_alwaysErr_result op defaultStrategies retryOnDeadlock maxRetries
      retryDelay e hop maxRetries 0
  · intro hr
    exact executeGo_nonretryable op defaultStrategies retryOnDeadlock maxRetries
      retryDelay e 0 maxRetries (hop 0) hr
  · have h := executeGo_count_le op defaultStrategies retryOnDeadlock maxRetries
      retryDelay maxRetries 0
    simpa [TransactionService.execute] using h

/-- C6 amended witness: the re-raise contract applied to a concrete
always-failing non-retryable unit of work. -/
theorem executor_reraises_original_error_witness :
    (TransactionService.execute
        (fun _ => .error (.otherError "boom") : Nat → Except DbError Nat)
        true 3 200).1 = .error (.otherError "boom") ∧
    ((true && isRetryable defaultStrategies (.otherError "boom")) = false →
      TransactionService.execute
        (fun _ => .error (.otherError "boom") : Nat → Except DbError Nat)
        true 3 200 = (.error (.otherError "boom"), 1, [])) ∧
    (TransactionService.execute
        (fun _ => .error (.otherError "boom") : Nat → Except DbError Nat)
        true 3 200).2.1 ≤ 3 + 1 :=
  executor_reraises_original_error Nat _ true 3 200 (.otherError "boom") (fun _ => rfl)

/-- C7: on every exit path of `executeTransaction` — the unit of work
returns, it raises a business or classified infrastructure error, or
the wall-clock transaction timeout fires — the query runner is released
exactly once. -/
theorem queryRunner_released_exactly_once :
    ∀ (T : Type) (outcome : UowOutcome T),
      ((executeTransactionRunner outcome).2).releaseCount = 1 := by
  intro T outcome
  cases outcome <;> rfl

/-- C8: pessimistic booking returns `NotFound` on a missing ticket,
rejects with the insufficient-quantity `ConflictException` leaving
quantity and version unchanged when `quantity < qty`, decrements and
persists (one version bump) otherwise; concretely, booking 999 from a
ticket with `quantity = 10` is rejected with no state change. -/
theorem pessimistic_booking_contract :
    (∀ (id : String) (qty : Int),
      bookTicket id none qty = (.error (.notFoundException (notFoundMsg id)), none, 1)) ∧
    (∀ (id : String) (t : Ticket) (qty : Int), t.quantity < qty →
      bookTicket id (some t) qty =
        (.error (.conflictException (insufficientMsg qty t.quantity)), some t, 1)) ∧
    (∀ (id : String) (t : Ticket) (qty : Int), ¬t.quantity < qty →
      bookTicket id (some t) qty =
        (.ok ⟨t.quantity - qty, t.version + 1⟩, some ⟨t.quantity - qty, t.version + 1⟩, 1)) ∧
    bookTicket "t1" (some ⟨10, 7⟩) 999 =
      (.error (.conflictException (insufficientMsg 999 10)), some ⟨10, 7⟩, 1) := by
  refine ⟨bookTicket_none, bookTicket_insufficient, bookTicket_ok, ?_⟩
  exact bookTicket_insufficient "t1" ⟨10, 7⟩ 999 (by decide)

/-- C8 witness: the contract applied at `quantity = 10, version = 3`,
requesting 999 (rejection, no state change) and requesting 4
(success). -/
theorem pessimistic_booking_contract_witness :
    bookTicket "t2" (some ⟨10, 3⟩) 999 =
      (.error (.conflictException (insufficientMsg 999 10)), some ⟨10, 3⟩, 1) ∧
    bookTicket "t2" (some ⟨10, 3⟩) 4 = (.ok ⟨6, 4⟩, some ⟨6, 4⟩, 1) :=
  ⟨pessimistic_booking_contract.2.1 "t2" ⟨10, 3⟩ 999 (by decide),
   pessimistic_booking_contract.2.2.1 "t2" ⟨10, 3⟩ 4 (by decide)⟩

/-- C9 counterexample: for an isolation level outside the four known
ones the timeout resolution does not fail — the table lookup is empty
and the code falls back to `DEFAULT_TRANSACTION_TIMEOUT`, returning a
value. -/
theorem unknown_isolation_level_returns_default :
    ISOLATION_LEVEL_TIMEOUTS "SNAPSHOT" = none ∧
    resolveTxTimeout none "SNAPSHOT" = DEFAULT_TRANSACTION_TIMEOUT := by
  decide

/-- C9 amended: the timeout table is total over exactly the four known
isolation levels with their default timeouts; for any other level the
lookup has no entry and the resolution returns the global default
`30000` instead of failing (unknown levels are ruled out statically by
the TypeScript `IsolationLevel` type, and no runtime configuration
error is raised). -/
theorem isolation_timeouts_total_with_default :
    resolveTxTimeout none "READ UNCOMMITTED" = 5000 ∧
    resolveTxTimeout none "READ COMMITTED" = 10000 ∧
    resolveTxTimeout none "REPEATABLE READ" = 15000 ∧
    resolveTxTimeout none "SERIALIZABLE" = 20000 ∧
    ∀ level, level ≠ "READ UNCOMMITTED" → level ≠ "READ COMMITTED" →
      level ≠ "REPEATABLE READ" → level ≠ "SERIALIZABLE" →
      ISOLATION_LEVEL_TIMEOUTS level = none ∧
      resolveTxTimeout none level = DEFAULT_TRANSACTION_TIMEOUT := by
  refine ⟨by decide, by decide, by decide, by decide, ?_⟩
  intro level h1 h2 h3 h4
  constructor
  · simp [ISOLATION_LEVEL_TIMEOUTS, h1, h2, h3, h4]
  · simp [resolveTxTimeout, jsOrNum, ISOLATION_LEVEL_TIMEOUTS, h1, h2, h3, h4,
      DEFAULT_TRANSACTION_TIMEOUT]

/-- C9 amended witness: the total-with-default resolution applied at
the unknown level string `"SNAPSHOT"`. -/
theorem isolation_timeouts_total_with_default_witness :
    ISOLATION_LEVEL_TIMEOUTS "SNAPSHOT" = none ∧
    resolveTxTimeout none "SNAPSHOT" = DEFAULT_TRANSACTION_TIMEOUT :=
  isolation_timeouts_total_with_default.2.2.2.2 "SNAPSHOT"
    (by decide) (by decide) (by decide) (by decide)

/-- C10: `TransactionService.execute` has its own bounded retry loop:
at most `maxRetries + 1` invocations of the unit of work; a
non-retryable error (or `retryOnDeadlock` disabled) propagates after
exactly one invocation with no delays slept; an always-deadlocking unit
of work under the defaults runs 4 times with linearly growing delays
`200, 400, 600`; and composed with the optimistic wrapper's
`maxRetries = 5` a persistently serialization-failing unit of work runs
`6 * 4 = 24` times. -/
theorem execute_retry_loop_bounds :
    (∀ (T : Type) (op : Nat → Except DbError T) (retryOnDeadlock : Bool)
       (maxRetries retryDelay : Nat),
      (TransactionService.execute op retryOnDeadlock maxRetries retryDelay).2.1 ≤
        maxRetries + 1) ∧
    (∀ (T : Type) (op : Nat → Except DbError T) (retryOnDeadlock : Bool)
       (maxRetries retryDelay : Nat) (e : DbError),
      op 0 = .error e → (retryOnDeadlock && isRetryable defaultStrategies e) = false →
      TransactionService.execute op retryOnDeadlock maxRetries retryDelay =
        (.error e, 1, [])) ∧
    (TransactionService.execute
        (fun _ => .error (.queryFailed "deadlock detected") : Nat → Except DbError Nat)
        true DEFAULT_MAX_RETRIES DEFAULT_RETRY_DELAY =
      (.error (.queryFailed "deadlock detected"), 4,
        [DEFAULT_RETRY_DELAY * 1, DEFAULT_RETRY_DELAY * 2, DEFAULT_RETRY_DELAY * 3])) ∧
    ((TransactionService.execute
        (fun _ => .error (.queryFailed "could not serialize access due to concurrent update") :
          Nat → Except DbError Nat)
        true DEFAULT_MAX_RETRIES DEFAULT_RETRY_DELAY).2.1 = 4 ∧
     (executeWithRetry
        (fun _ => (TransactionService.execute
          (fun _ => .error
              (.queryFailed "could not serialize access due to concurrent update") :
            Nat → Except DbError Nat)
          true DEFAULT_MAX_RETRIES DEFAULT_RETRY_DELAY).1)
        5 "booking ticket t1").2 = 6 ∧
     (executeWithRetry
        (fun _ => (TransactionService.execute
          (fun _ => .error
              (.queryFailed "could not serialize access due to concurrent update") :
            Nat → Except DbError Nat)
          true DEFAULT_MAX_RETRIES DEFAULT_RETRY_DELAY).1)
        5 "booking ticket t1").2 *
      (TransactionService.execute
        (fun _ => .error (.queryFailed "could not serialize access due to concurrent update") :
          Nat → Except DbError Nat)
        true DEFAULT_MAX_RETRIES DEFAULT_RETRY_DELAY).2.1 = 24) := by
  refine ⟨?_, ?_, by decide, by decide⟩
  · intro T op retryOnDeadlock maxRetries retryDelay
    have h := executeGo_count_le op defaultStrategies retryOnDeadlock maxRetries
      retryDelay maxRetries 0
    simpa [TransactionService.execute] using h
  · intro T op retryOnDeadlock maxRetries retryDelay e h hr
    exact executeGo_nonretryable op defaultStrategies retryOnDeadlock maxRetries
      retryDelay e 0 maxRetries h hr

/-- C10 witness: the loop bounds applied to a concrete non-retryable
failure (one invocation, error propagated, no delays). -/
theorem execute_retry_loop_bounds_witness :
    TransactionService.execute
        (fun _ => .error (.notFoundException "gone") : Nat → Except DbError Nat)
        true 3 200 = (.error (.notFoundException "gone"), 1, []) :=
  execute_retry_loop_bounds.2.1 Nat _ true 3 200 (.notFoundException "gone") rfl (by decide)

theorem applyCall_some (t : Ticket) (c : BookingCall) :
    (c.kind = .book ∧ ¬t.quantity < (c.qty : Int) ∧
      applyCall (some t) c =
        (.ok ⟨t.quantity - (c.qty : Int), t.version + 1⟩,
         some ⟨t.quantity - (c.qty : Int), t.version + 1⟩)) ∨
    (c.kind = .book ∧ t.quantity < (c.qty : Int) ∧
      ∃ e, applyCall (some t) c = (.error e, some t)) ∨
    (c.kind = .release ∧
      applyCall (some t) c =
        (.ok ⟨t.quantity + (c.qty : Int), t.version + 1⟩,
         some ⟨t.quantity + (c.qty : Int), t.version + 1⟩)) := by
  obtain ⟨k, o, q⟩ := c
  cases k with
  | book =>
      cases o with
      | false =>
          by_cases hq : t.quantity < (q : Int)
          · exact Or.inr (Or.inl ⟨rfl, hq,
              .conflictException (insufficientMsg q t.quantity),
              by simp [applyCall, bookTicket_insufficient "t" t q hq]⟩)
          · exact Or.inl ⟨rfl, hq, by simp [applyCall, bookTicket_ok "t" t q hq]⟩
      | true =>
          by_cases hq : t.quantity < (q : Int)
          · exact Or.inr (Or.inl ⟨rfl, hq,
              .conflictException (terminalConflictMsg ("booking ticket " ++ "t") 5),
              by simp [applyCall, bookTicketOptimistic_insufficient "t" t q hq]⟩)
          · exact Or.inl ⟨rfl, hq, by simp [applyCall, bookTicketOptimistic_ok "t" t q hq]⟩
  | release =>
      cases o with
      | false =>
          exact Or.inr (Or.inr ⟨rfl, by simp [applyCall, releaseTicket_some "t" t q]⟩)
      | true =>
          exact Or.inr (Or.inr ⟨rfl, by simp [applyCall, releaseTicketOptimistic_some "t" t q]⟩)

/-- C1: no oversell. A booking reported as succeeded decremented the
committed quantity by its requested amount and only fired when
`quantity >= requested`; along every sequence of book/release calls
(either strategy) starting from a non-negative quantity `Q0`, every
committed state keeps `quantity >= 0`, and the final quantity is
`Q0 - sum(succeeded bookings) + sum(succeeded releases)`. -/
theorem trace_no_oversell :
    (∀ (t : Ticket) (c : BookingCall) (r : Ticket), c.kind = .book →
      (applyCall (some t) c).1 = .ok r →
      (c.qty : Int) ≤ t.quantity ∧
      (applyCall (some t) c).2 = some ⟨t.quantity - (c.qty : Int), t.version + 1⟩) ∧
    (∀ (cs : List BookingCall) (q0 : Int) (v0 : Nat), 0 ≤ q0 →
      (∀ s ∈ traceStates (some ⟨q0, v0⟩) cs, ∀ t, s = some t → 0 ≤ t.quantity) ∧
      ∃ t, (runTrace (some ⟨q0, v0⟩) cs).1 = some t ∧
        t.quantity = q0 - (runTrace (some ⟨q0, v0⟩) cs).2.1 +
          (runTrace (some ⟨q0, v0⟩) cs).2.2) := by
  constructor
  · intro t c r hk hok
    rcases applyCall_some t c with ⟨_, hq, heq⟩ | ⟨_, hq, e, heq⟩ | ⟨hk3, _⟩
    · exact ⟨not_lt.mp hq, by rw [heq]⟩
    · rw [heq] at hok
      simp at hok
    · rw [hk] at hk3
      simp at hk3
  · intro cs
    induction cs with
    | nil =>
        intro q0 v0 h0
        refine ⟨?_, ⟨q0, v0⟩, rfl, by simp [runTrace]⟩
        intro s hs t ht
        simp [traceStates] at hs
        subst hs
        obtain rfl : t = ⟨q0, v0⟩ := by injection ht with h; exact h.symm
        exact h0
    | cons c rest ih =>
        intro q0 v0 h0
        rcases applyCall_some ⟨q0, v0⟩ c with ⟨hk, hq, heq⟩ | ⟨hk, hq, e, heq⟩ | ⟨hk, heq⟩
        · -- successful booking: quantity drops by qty, stays non-negative
          have hq' : ¬q0 < (c.qty : Int) := hq
          have h0' : (0 : Int) ≤ q0 - (c.qty : Int) := by omega
          obtain ⟨hNN, t, hfin, hacc⟩ := ih (q0 - (c.qty : Int)) (v0 + 1) h0'
          constructor
          · intro s hs t' ht'
            simp only [traceStates, heq, List.mem_cons] at hs
            rcases hs with hs | hs
            · subst hs
              obtain rfl : t' = ⟨q0, v0⟩ := by injection ht' with h; exact h.symm
              exact h0
            · exact hNN s hs t' ht'
          · refine ⟨t, ?_, ?_⟩
            · simp only [runTrace, heq, hk]
              exact hfin
            · simp only [runTrace, heq, hk]
              omega
        · -- rejected booking: state unchanged, sums unchanged
          obtain ⟨hNN, t, hfin, hacc⟩ := ih q0 v0 h0
          constructor
          · intro s hs t' ht'
            simp only [traceStates, heq, List.mem_cons] at hs
            rcases hs with hs | hs
            · subst hs
              obtain rfl : t' = ⟨q0, v0⟩ := by injection ht' with h; exact h.symm
              exact h0
            · exact hNN s hs t' ht'
          · refine ⟨t, ?_, ?_⟩
            · simp only [runTrace, heq]
              exact hfin
            · simp only [runTrace, heq]
              omega
        · -- release: quantity grows, stays non-negative
          have hpos : (0 : Int) ≤ (c.qty : Int) := Int.natCast_nonneg _
          have h0' : (0 : Int) ≤ q0 + (c.qty : Int) := by omega
          obtain ⟨hNN, t, hfin, hacc⟩ := ih (q0 + (c.qty : Int)) (v0 + 1) h0'
          constructor
          · intro s hs t' ht'
            simp only [traceStates, heq, List.mem_cons] at hs
            rcases hs with hs | hs
            · subst hs
              obtain rfl : t' = ⟨q0, v0⟩ := by injection ht' with h; exact h.symm
              exact h0
            · exact hNN s hs t' ht'
          · refine ⟨t, ?_, ?_⟩
            · simp only [runTrace, heq, hk]
              exact hfin
            · simp only [runTrace, heq, hk]
              omega

/-- C1 witness: the succeeded-booking statement applied to a concrete
call (booking 3 of 10), and the trace statement applied to a concrete
two-call trace starting at quantity 5. -/
theorem trace_no_oversell_witness :
    ((3 : Int) ≤ 10 ∧
      (applyCall (some ⟨10, 1⟩) ⟨CallKind.book, false, 3⟩).2 = some ⟨7, 2⟩) ∧
    ∃ t, (runTrace (some ⟨5, 1⟩)
        [⟨CallKind.book, false, 3⟩, ⟨CallKind.release, true, 2⟩]).1 = some t ∧
      t.quantity = 5 - (runTrace (some ⟨5, 1⟩)
        [⟨CallKind.book, false, 3⟩, ⟨CallKind.release, true, 2⟩]).2.1 +
        (runTrace (some ⟨5, 1⟩)
          [⟨CallKind.book, false, 3⟩, ⟨CallKind.release, true, 2⟩]).2.2 := by
  constructor
  · have h := trace_no_oversell.1 ⟨10, 1⟩ ⟨CallKind.book, false, 3⟩ ⟨7, 2⟩ rfl (by decide)
    simpa using h
  · exact (trace_no_oversell.2
      [⟨CallKind.book, false, 3⟩, ⟨CallKind.release, true, 2⟩] 5 1 (by decide)).2

end Ticketing
